import Mathlib

/-!
Verification development for the goatd HTTP/JSON client
(src/goatdclient/goatd_client.py).

The client is shallowly embedded: Python/JSON values are the inductive
type Json (Python numbers keep the int/float distinction, since the
json module serializes them differently); a Python exception is a
PyErr; the network is an oracle Env mapping each HTTP request to
either a decoded JSON response or a failure (a failure models a
urlopen error, a non-2xx status, or a json.loads decode error).
Every operation returns its result together with the list of HTTP
requests it issued, in order, so that claims about how many requests
an operation performs are plain equations on that trace.

Floats are modelled as rationals: the client does no float arithmetic,
it only passes float values through, so exact rationals are faithful.
-/

/-- A JSON value as decoded by Python's json module. Python None and a
JSON null are identified; Python ints and floats are kept distinct
because json.dumps serializes them differently. An object is the
decoded dict as an association list; json.loads produces dicts with
unique keys, so first-match lookup is dict lookup. -/
inductive Json where
  | null : Json
  | bool (b : Bool) : Json
  | int (n : Int) : Json
  | float (q : ℚ) : Json
  | str (s : String) : Json
  | arr (xs : List Json) : Json
  | obj (kvs : List (String × Json)) : Json

/-- A Python exception, by class, as surfaced by the client. -/
inductive PyErr where
  | transportError : PyErr
  | attributeError : PyErr
  | typeError : PyErr
  | valueError : PyErr
deriving DecidableEq

/-- An HTTP request as issued by the transport: the method, the endpoint
path, and (for POST) the JSON body. -/
inductive HttpReq where
  | get (endpoint : String) : HttpReq
  | post (endpoint : String) (body : Json) : HttpReq

/-- The network oracle: what each request returns. An error models a
urlopen failure (connection refused, non-2xx status) or a json.loads
failure on the response body. -/
def Env : Type := HttpReq → Except PyErr Json

/-- First-match lookup of a key in a decoded JSON object. -/
def jlookup (k : String) : List (String × Json) → Option Json
  | [] => none
  | (k2, v) :: rest => if k2 = k then some v else jlookup k rest

/-- Python dict.get(k) on a decoded JSON value: on a dict it returns the
stored value, or None when the key is absent (a stored JSON null and an
absent key both yield Python None, i.e. Json.null); on None or any
non-dict value, attribute access .get raises AttributeError. -/
def pyGet (d : Json) (k : String) : Except PyErr Json :=
  match d with
  | .obj kvs =>
    match jlookup k kvs with
    | some v => .ok v
    | none => .ok .null
  | _ => .error .attributeError

/-- Value of a digit character. -/
def digitVal (c : Char) : Nat := c.toNat - 48

/-- Natural number denoted by a list of digit characters (empty list is 0,
matching its use below where at least one digit is present overall). -/
def digitsVal (ds : List Char) : ℚ :=
  ds.foldl (fun a c => a * 10 + (digitVal c : ℚ)) 0

/-- Python float(s) on a string, modelled for plain decimal literals:
optional surrounding spaces, an optional sign, digits with an optional
fractional part ("1", "1.5", ".5", "1."). Exotic accepted forms
(exponents, inf/nan, underscores) are not modelled; the claims only
quantify over whether coercion succeeds. -/
def parseFloatStr (s : String) : Option ℚ :=
  let cs := ((s.toList.dropWhile (fun c => c = ' ')).reverse.dropWhile
      (fun c => c = ' ')).reverse
  let sign : ℚ := match cs with
    | '-' :: _ => -1
    | _ => 1
  let cs2 := match cs with
    | '-' :: rest => rest
    | '+' :: rest => rest
    | _ => cs
  let intPart := cs2.takeWhile Char.isDigit
  let rest := cs2.dropWhile Char.isDigit
  match rest with
  | [] =>
    if intPart.isEmpty then none
    else some (sign * digitsVal intPart)
  | '.' :: frac =>
    if frac.all Char.isDigit ∧ ¬ (intPart.isEmpty ∧ frac.isEmpty) then
      some (sign * (digitsVal intPart + digitsVal frac / (10 : ℚ) ^ frac.length))
    else none
  | _ => none

/-- Python float(x): numbers coerce (ints exactly, bools to 0/1),
numeric strings parse (ValueError otherwise), and None, lists and dicts
raise TypeError. -/
def pyFloat (v : Json) : Except PyErr ℚ :=
  match v with
  | .int n => .ok (n : ℚ)
  | .float q => .ok q
  | .bool b => .ok (if b then 1 else 0)
  | .str s =>
    match parseFloatStr s with
    | some q => .ok q
    | none => .error .valueError
  | .null => .error .typeError
  | .arr _ => .error .typeError
  | .obj _ => .error .typeError

/-- Python str(x) as used by str.format. Only the string case is
exercised by the client's format call; the float and container cases
are best-effort renderings. -/
def pyStr (v : Json) : String :=
  match v with
  | .null => "None"
  | .bool true => "True"
  | .bool false => "False"
  | .int n => toString n
  | .float q => toString q
  | .str s => s
  | .arr _ => "[...]"
  | .obj _ => "\x7b...\x7d"

/-- The opening brace character. -/
def lbrace : Char := Char.ofNat 123

/-- The closing brace character. -/
def rbrace : Char := Char.ofNat 125

/-- Python str.format, modelled for templates whose placeholders are
single-digit positional fields: each such field is replaced by the
corresponding argument verbatim (substituted text is not rescanned),
all other characters are copied. -/
def formatChars (args : List String) : List Char → List Char
  | [] => []
  | [c] => [c]
  | [c, d] => [c, d]
  | c1 :: d :: c2 :: rest =>
    if c1 = lbrace ∧ d.isDigit ∧ c2 = rbrace then
      (args.getD (digitVal d) "").toList ++ formatChars args rest
    else
      c1 :: formatChars args (d :: c2 :: rest)

/-- Apply a three-argument format template. -/
def pyFormat3 (template a0 a1 a2 : String) : String :=
  String.mk (formatChars [a0, a1, a2] template.toList)

/-- Transport endpoint configuration (Goatd.__init__): host and port,
immutable after construction. -/
structure Goatd where
  host : String
  port : Int

/-- Goatd.url: format a full URL for an endpoint on the goatd server,
via the literal template http with three positional fields. -/
def Goatd.url (g : Goatd) (endpoint : String) : String :=
  pyFormat3 ("http://{0}:{1}{2}") g.host (toString g.port) endpoint

/-- Goatd.get: GET the endpoint and decode the body as JSON. The oracle
abstracts the urlopen/json.loads pipeline per request. -/
def Goatd.get (env : Env) (endpoint : String) : Except PyErr Json :=
  env (.get endpoint)

/-- Goatd.post: serialize the content, POST it to the endpoint, decode
the response body as JSON. -/
def Goatd.post (env : Env) (content : Json) (endpoint : String) :
    Except PyErr Json :=
  env (.post endpoint content)

/-- Goatd.version: GET the root path and read content.get('goatd')
followed by .get('version'); the second .get raises AttributeError
when the first returned None or a non-dict. The trace of issued
requests is returned alongside. -/
def Goatd.version (env : Env) : Except PyErr Json × List HttpReq :=
  match Goatd.get env ("/") with
  | .error e => (.error e, [.get ("/")])
  | .ok content =>
    (match pyGet content ("goatd") with
     | .error e => .error e
     | .ok g => pyGet g ("version"),
     [.get ("/")])

/-- Modelled from the spec: the Bearing value type lives in a separate
module (bearing.py, not part of this source file); it wraps a float
degree value, normalization semantics external. The wrapped value is
kept as given. -/
structure Bearing where
  degrees : ℚ

/-- Modelled from the spec: two bearings (or a bearing and a raw degree
value) are equivalent when their degree values differ by a whole number
of full turns. -/
def Bearing.equivalent (b : Bearing) (d : ℚ) : Prop :=
  ∃ k : ℤ, b.degrees - d = 360 * k

/-- Modelled from the spec: constructing a Bearing from a float wraps
the degree value. -/
def Bearing.ofFloat (q : ℚ) : Bearing := ⟨q⟩

/-- Modelled from the spec: the Bearing constructor accepts any float;
applied to a raw decoded JSON value (as in Goat.wind) the argument is
coerced to float first. -/
def Bearing.ofPy (v : Json) : Except PyErr Bearing :=
  match pyFloat v with
  | .error e => .error e
  | .ok q => .ok ⟨q⟩

/-- The Wind namedtuple: absolute bearing, raw speed value (the source
passes content.get('speed') through without coercion), apparent
bearing. -/
structure Wind where
  absolute : Bearing
  speed : Json
  apparent : Bearing

/-- Modelled from the spec: the Point value type lives in a separate
module (point.py, not part of this source file); it is an immutable
pair of latitude and longitude floats. -/
structure Point where
  latitude : ℚ
  longitude : ℚ

/-- Modelled from the spec: constructing a Point from two raw decoded
JSON values coerces each coordinate to float. -/
def Point.ofPy (la lo : Json) : Except PyErr Point :=
  match pyFloat la with
  | .error e => .error e
  | .ok a =>
    match pyFloat lo with
    | .error e => .error e
    | .ok b => .ok ⟨a, b⟩

/-- The Goat proxy state (Goat.__init__): the transport, the
auto_update flag, and the cached snapshot (initially the empty dict). -/
structure Goat where
  goatd : Goatd
  auto_update : Bool
  _cached_goat : Json

/-- Outcome of calling a Goat method: the proxy state afterwards, the
returned value or raised exception, and the HTTP requests issued in
order. -/
structure Eff (α : Type) where
  state : Goat
  result : Except PyErr α
  trace : List HttpReq

/-- Goat.update: GET /goat and assign the decoded response to
self._cached_goat. When the GET or the decode raises, the assignment
never happens: the exception propagates and the old snapshot stays. -/
def Goat.update (env : Env) (g : Goat) : Eff Unit :=
  match Goatd.get env ("/goat") with
  | .error e => ⟨g, .error e, [.get ("/goat")]⟩
  | .ok j => ⟨{ g with _cached_goat := j }, .ok (), [.get ("/goat")]⟩

/-- The _auto_update decorator: when self.auto_update is set, call
self.update() before running the wrapped reader on the (now fresh)
snapshot; otherwise run the reader on the existing snapshot without
any request. An exception from update propagates and the reader never
runs. -/
def Goat._auto_update (env : Env) (g : Goat) (f : Json → Except PyErr α) :
    Eff α :=
  if g.auto_update then
    match Goat.update env g with
    | ⟨g2, .error e, tr⟩ => ⟨g2, .error e, tr⟩
    | ⟨g2, .ok _, tr⟩ => ⟨g2, f g2._cached_goat, tr⟩
  else
    ⟨g, f g._cached_goat, []⟩

/-- Body of the heading property: Bearing(float(content.get('heading'))). -/
def readHeading (content : Json) : Except PyErr Bearing := do
  let v ← pyGet content ("heading")
  let q ← pyFloat v
  return Bearing.ofFloat q

/-- Body of the wind property: read content = snapshot.get('wind'), then
build Wind(Bearing(content.get('absolute')), content.get('speed'),
Bearing(content.get('apparent'))), arguments evaluated left to right. -/
def readWind (snapshot : Json) : Except PyErr Wind := do
  let content ← pyGet snapshot ("wind")
  let a ← pyGet content ("absolute")
  let ba ← Bearing.ofPy a
  let s ← pyGet content ("speed")
  let ap ← pyGet content ("apparent")
  let bap ← Bearing.ofPy ap
  return ⟨ba, s, bap⟩

/-- Body of the position property: unpack lat, lon =
content.get('position') (a 2-element sequence; wrong length raises
ValueError, a non-sequence raises TypeError; iteration over strings or
dicts is not modelled) and build Point(lat, lon). -/
def readPosition (content : Json) : Except PyErr Point := do
  let v ← pyGet content ("position")
  match v with
  | .arr [la, lo] => Point.ofPy la lo
  | .arr _ => .error .valueError
  | _ => .error .typeError

/-- Body of the target_rudder_angle property:
float(content.get('rudder_angle')). -/
def readTargetRudderAngle (content : Json) : Except PyErr ℚ := do
  let v ← pyGet content ("rudder_angle")
  pyFloat v

/-- Body of the target_sail_angle property:
float(content.get('sail_angle')). -/
def readTargetSailAngle (content : Json) : Except PyErr ℚ := do
  let v ← pyGet content ("sail_angle")
  pyFloat v

/-- The heading property, wrapped by _auto_update. -/
def Goat.heading (env : Env) (g : Goat) : Eff Bearing :=
  Goat._auto_update env g readHeading

/-- The wind property, wrapped by _auto_update. -/
def Goat.wind (env : Env) (g : Goat) : Eff Wind :=
  Goat._auto_update env g readWind

/-- The position property, wrapped by _auto_update. -/
def Goat.position (env : Env) (g : Goat) : Eff Point :=
  Goat._auto_update env g readPosition

/-- The target_rudder_angle property, wrapped by _auto_update. -/
def Goat.target_rudder_angle (env : Env) (g : Goat) : Eff ℚ :=
  Goat._auto_update env g readTargetRudderAngle

/-- The target_sail_angle property, wrapped by _auto_update. -/
def Goat.target_sail_angle (env : Env) (g : Goat) : Eff ℚ :=
  Goat._auto_update env g readTargetSailAngle

/-- Goat.set_rudder: coerce the angle to float first (the second
float() in the source applies to an already-coerced float and is the
identity), then POST the value dict to /rudder and return the
response's result field (request.get('result')). The snapshot is never
touched and no refresh happens. -/
def Goat.set_rudder (env : Env) (g : Goat) (angle : Json) : Eff Json :=
  match pyFloat angle with
  | .error e => ⟨g, .error e, []⟩
  | .ok a =>
    match Goatd.post env (.obj [(("value"), .float a)]) ("/rudder") with
    | .error e => ⟨g, .error e, [.post ("/rudder") (.obj [(("value"), .float a)])]⟩
    | .ok r => ⟨g, pyGet r ("result"), [.post ("/rudder") (.obj [(("value"), .float a)])]⟩

/-- Goat.set_sail: identical to set_rudder against /sail. -/
def Goat.set_sail (env : Env) (g : Goat) (angle : Json) : Eff Json :=
  match pyFloat angle with
  | .error e => ⟨g, .error e, []⟩
  | .ok a =>
    match Goatd.post env (.obj [(("value"), .float a)]) ("/sail") with
    | .error e => ⟨g, .error e, [.post ("/sail") (.obj [(("value"), .float a)])]⟩
    | .ok r => ⟨g, pyGet r ("result"), [.post ("/sail") (.obj [(("value"), .float a)])]⟩

/-- Outcome of a stateless client call: the returned value or raised
exception and the HTTP requests issued in order. -/
structure Res (α : Type) where
  result : Except PyErr α
  trace : List HttpReq

/-- Behaviour.start: POST the active dict to /behaviours, read
current = d.get('active'); when current is not None format
'started {0}' with str(current), otherwise return the literal
'no behaviour running'. -/
def Behaviour.start (env : Env) (name : Json) : Res Json :=
  match Goatd.post env (.obj [(("active"), name)]) ("/behaviours") with
  | .error e => ⟨.error e, [.post ("/behaviours") (.obj [(("active"), name)])]⟩
  | .ok d =>
    ⟨(match pyGet d ("active") with
      | .error e => .error e
      | .ok current =>
        match current with
        | .null => .ok (.str ("no behaviour running"))
        | v => .ok (.str ("started " ++ pyStr v))),
     [.post ("/behaviours") (.obj [(("active"), name)])]⟩

/-- Behaviour.stop: call self.start(None) with no return statement —
the POST happens and an exception propagates, but start's string
result is discarded and the method returns None. -/
def Behaviour.stop (env : Env) : Res Json :=
  match Behaviour.start env .null with
  | ⟨.error e, tr⟩ => ⟨.error e, tr⟩
  | ⟨.ok _, tr⟩ => ⟨.ok .null, tr⟩

/-- get_home_position: GET /waypoints, read home =
content.get('home', None); when home is not None unpack lat, lon = home
and return Point(lat, lon), otherwise return None. -/
def get_home_position (env : Env) : Res (Option Point) :=
  match Goatd.get env ("/waypoints") with
  | .error e => ⟨.error e, [.get ("/waypoints")]⟩
  | .ok content =>
    ⟨(match pyGet content ("home") with
      | .error e => .error e
      | .ok home =>
        match home with
        | .null => .ok none
        | .arr [la, lo] =>
          (match Point.ofPy la lo with
           | .error e => .error e
           | .ok p => .ok (some p))
        | .arr _ => .error .valueError
        | _ => .error .typeError),
     [.get ("/waypoints")]⟩

/-- Default transport configuration (localhost, port 2222). -/
def defaultGoatd : Goatd := ⟨("localhost"), 2222⟩

/-- The fixed mocked /goat response of the round-trip property. -/
def mockGoatResponse : Json :=
  .obj [(("heading"), .float 90),
        (("wind"), .obj [(("absolute"), .float 45),
                         (("speed"), .float 5),
                         (("apparent"), .float 30)]),
        (("position"), .arr [.float 51.5, .float (-0.1)]),
        (("rudder_angle"), .float (-10)),
        (("sail_angle"), .float 20)]

/-- A proxy with auto_update disabled whose cache holds the mocked
snapshot. -/
def goatManual : Goat := ⟨defaultGoatd, false, mockGoatResponse⟩

/-- A freshly constructed proxy with auto_update enabled and the empty
initial cache. -/
def goatAuto : Goat := ⟨defaultGoatd, true, .obj []⟩

/-- An oracle answering every request with the mocked /goat response. -/
def envGoat : Env := fun _ => .ok mockGoatResponse

/-- An oracle on which every request fails at the transport layer. -/
def envDown : Env := fun _ => .error .transportError

/-- An oracle answering every request with an empty JSON object. -/
def envRootEmpty : Env := fun _ => .ok (.obj [])

/-- An oracle whose root response holds a goatd object without a
version key. -/
def envRootNoVersion : Env :=
  fun _ => .ok (.obj [(("goatd"), .obj [(("other"), .int 1)])])

/-- An oracle answering every request with an active: null object. -/
def envBehNull : Env := fun _ => .ok (.obj [(("active"), .null)])

/-- An oracle answering every request with an active: tack object. -/
def envBehTack : Env := fun _ => .ok (.obj [(("active"), .str ("tack"))])

/-- An oracle answering every request with a result field of 10.0. -/
def envResult10 : Env := fun _ => .ok (.obj [(("result"), .float 10)])

/-- An oracle whose /waypoints response has no home key. -/
def envNoHome : Env :=
  fun _ => .ok (.obj [(("waypoints"), .arr [.arr [.int 1, .int 2]])])

/-- An oracle whose /waypoints response has home 3, 4. -/
def envHome34 : Env :=
  fun _ => .ok (.obj [(("waypoints"), .arr []),
                      (("home"), .arr [.int 3, .int 4])])

/-- Helper: a property read issues exactly one GET /goat when
auto_update is set and none otherwise. -/
theorem auto_update_trace (env : Env) (g : Goat) {α : Type}
    (f : Json → Except PyErr α) :
    (Goat._auto_update env g f).trace =
      if g.auto_update then [HttpReq.get ("/goat")] else [] := by
  unfold Goat._auto_update Goat.update Goatd.get
  cases hu : g.auto_update <;> simp
  cases env (.get ("/goat")) <;> simp

/-- Helper: with auto_update off, a property read touches nothing and
reads the existing cached snapshot. -/
theorem auto_update_false (env : Env) (g : Goat) {α : Type}
    (f : Json → Except PyErr α) (h : g.auto_update = false) :
    Goat._auto_update env g f = ⟨g, f g._cached_goat, []⟩ := by
  unfold Goat._auto_update
  rw [h]
  simp

/-- Helper: with auto_update on and a successful GET, a property read
first swaps in the fresh snapshot, then reads it. -/
theorem auto_update_true_ok (env : Env) (g : Goat) {α : Type}
    (f : Json → Except PyErr α) (h : g.auto_update = true) (j : Json)
    (hj : env (.get ("/goat")) = .ok j) :
    Goat._auto_update env g f =
      ⟨{ g with _cached_goat := j }, f j, [.get ("/goat")]⟩ := by
  unfold Goat._auto_update Goat.update Goatd.get
  rw [h, hj]
  rfl

/-- Helper: with auto_update on and a failing GET, a property read
propagates the failure and leaves the proxy untouched. -/
theorem auto_update_true_err (env : Env) (g : Goat) {α : Type}
    (f : Json → Except PyErr α) (h : g.auto_update = true) (e : PyErr)
    (hj : env (.get ("/goat")) = .error e) :
    Goat._auto_update env g f = ⟨g, .error e, [.get ("/goat")]⟩ := by
  unfold Goat._auto_update Goat.update Goatd.get
  rw [h, hj]
  rfl

/-- Helper: Behaviour.start always issues exactly its one POST. -/
theorem start_trace (env : Env) (name : Json) :
    (Behaviour.start env name).trace =
      [.post ("/behaviours") (.obj [(("active"), name)])] := by
  unfold Behaviour.start Goatd.post
  cases env (.post ("/behaviours") (.obj [(("active"), name)])) <;> rfl

/-- C1: for every proxy state and oracle, each of the five property
reads (heading, wind, position, target_rudder_angle,
target_sail_angle) issues exactly one GET /goat when auto_update is
true and no request at all when it is false; with auto_update false
the read uses the existing cached snapshot and leaves the proxy
unchanged, and with auto_update true and a successful GET the read is
of the freshly fetched snapshot. -/
theorem c1_auto_update_get_policy (env : Env) (g : Goat) :
    ((Goat.heading env g).trace =
        (if g.auto_update then [HttpReq.get ("/goat")] else []))
  ∧ ((Goat.wind env g).trace =
        (if g.auto_update then [HttpReq.get ("/goat")] else []))
  ∧ ((Goat.position env g).trace =
        (if g.auto_update then [HttpReq.get ("/goat")] else []))
  ∧ ((Goat.target_rudder_angle env g).trace =
        (if g.auto_update then [HttpReq.get ("/goat")] else []))
  ∧ ((Goat.target_sail_angle env g).trace =
        (if g.auto_update then [HttpReq.get ("/goat")] else []))
  ∧ (g.auto_update = false →
        Goat.heading env g = ⟨g, readHeading g._cached_goat, []⟩
      ∧ Goat.wind env g = ⟨g, readWind g._cached_goat, []⟩
      ∧ Goat.position env g = ⟨g, readPosition g._cached_goat, []⟩
      ∧ Goat.target_rudder_angle env g =
          ⟨g, readTargetRudderAngle g._cached_goat, []⟩
      ∧ Goat.target_sail_angle env g =
          ⟨g, readTargetSailAngle g._cached_goat, []⟩)
  ∧ (g.auto_update = true → ∀ j, env (.get ("/goat")) = .ok j →
        Goat.heading env g =
          ⟨{ g with _cached_goat := j }, readHeading j, [.get ("/goat")]⟩
      ∧ Goat.wind env g =
          ⟨{ g with _cached_goat := j }, readWind j, [.get ("/goat")]⟩
      ∧ Goat.position env g =
          ⟨{ g with _cached_goat := j }, readPosition j, [.get ("/goat")]⟩
      ∧ Goat.target_rudder_angle env g =
          ⟨{ g with _cached_goat := j }, readTargetRudderAngle j,
            [.get ("/goat")]⟩
      ∧ Goat.target_sail_angle env g =
          ⟨{ g with _cached_goat := j }, readTargetSailAngle j,
            [.get ("/goat")]⟩) := by
  refine ⟨auto_update_trace env g readHeading,
          auto_update_trace env g readWind,
          auto_update_trace env g readPosition,
          auto_update_trace env g readTargetRudderAngle,
          auto_update_trace env g readTargetSailAngle,
          fun h => ⟨auto_update_false env g readHeading h,
                    auto_update_false env g readWind h,
                    auto_update_false env g readPosition h,
                    auto_update_false env g readTargetRudderAngle h,
                    auto_update_false env g readTargetSailAngle h⟩,
          fun h j hj => ⟨auto_update_true_ok env g readHeading h j hj,
                         auto_update_true_ok env g readWind h j hj,
                         auto_update_true_ok env g readPosition h j hj,
                         auto_update_true_ok env g readTargetRudderAngle h j hj,
                         auto_update_true_ok env g readTargetSailAngle h j hj⟩⟩

/-- Witness for C1: the auto_update = false case on a proxy holding the
mocked snapshot, and the auto_update = true case on a fresh proxy
against an oracle serving the mocked snapshot. -/
theorem c1_auto_update_get_policy_witness :
    (Goat.heading envGoat goatManual =
        ⟨goatManual, readHeading goatManual._cached_goat, []⟩
      ∧ Goat.wind envGoat goatManual =
        ⟨goatManual, readWind goatManual._cached_goat, []⟩
      ∧ Goat.position envGoat goatManual =
        ⟨goatManual, readPosition goatManual._cached_goat, []⟩
      ∧ Goat.target_rudder_angle envGoat goatManual =
        ⟨goatManual, readTargetRudderAngle goatManual._cached_goat, []⟩
      ∧ Goat.target_sail_angle envGoat goatManual =
        ⟨goatManual, readTargetSailAngle goatManual._cached_goat, []⟩)
  ∧ (Goat.heading envGoat goatAuto =
        ⟨{ goatAuto with _cached_goat := mockGoatResponse },
          readHeading mockGoatResponse, [.get ("/goat")]⟩
      ∧ Goat.wind envGoat goatAuto =
        ⟨{ goatAuto with _cached_goat := mockGoatResponse },
          readWind mockGoatResponse, [.get ("/goat")]⟩
      ∧ Goat.position envGoat goatAuto =
        ⟨{ goatAuto with _cached_goat := mockGoatResponse },
          readPosition mockGoatResponse, [.get ("/goat")]⟩
      ∧ Goat.target_rudder_angle envGoat goatAuto =
        ⟨{ goatAuto with _cached_goat := mockGoatResponse },
          readTargetRudderAngle mockGoatResponse, [.get ("/goat")]⟩
      ∧ Goat.target_sail_angle envGoat goatAuto =
        ⟨{ goatAuto with _cached_goat := mockGoatResponse },
          readTargetSailAngle mockGoatResponse, [.get ("/goat")]⟩) :=
  ⟨(c1_auto_update_get_policy envGoat goatManual).2.2.2.2.2.1 rfl,
   (c1_auto_update_get_policy envGoat goatAuto).2.2.2.2.2.2 rfl
     mockGoatResponse rfl⟩

/-- C2: Goat.update (refresh) either fails with the GET's failure and
leaves the whole proxy — in particular the previously cached snapshot —
unchanged, or succeeds and fully replaces the cached snapshot with the
decoded response. -/
theorem c2_refresh_swap_or_retain (env : Env) (g : Goat) :
    (∀ e, env (.get ("/goat")) = .error e →
        Goat.update env g = ⟨g, .error e, [.get ("/goat")]⟩
      ∧ (Goat.update env g).state._cached_goat = g._cached_goat)
  ∧ (∀ j, env (.get ("/goat")) = .ok j →
        Goat.update env g =
          ⟨{ g with _cached_goat := j }, .ok (), [.get ("/goat")]⟩
      ∧ (Goat.update env g).state._cached_goat = j) := by
  constructor
  · intro e he
    have h1 : Goat.update env g = ⟨g, .error e, [.get ("/goat")]⟩ := by
      unfold Goat.update Goatd.get
      rw [he]
    exact ⟨h1, by rw [h1]⟩
  · intro j hj
    have h1 : Goat.update env g =
        ⟨{ g with _cached_goat := j }, .ok (), [.get ("/goat")]⟩ := by
      unfold Goat.update Goatd.get
      rw [hj]
    exact ⟨h1, by rw [h1]⟩

/-- Witness for C2: a refresh against a dead oracle keeps the mocked
snapshot; a refresh against a live oracle swaps it in. -/
theorem c2_refresh_swap_or_retain_witness :
    (Goat.update envDown goatManual =
        ⟨goatManual, .error .transportError, [.get ("/goat")]⟩
      ∧ (Goat.update envDown goatManual).state._cached_goat =
          goatManual._cached_goat)
  ∧ (Goat.update envGoat goatAuto =
        ⟨{ goatAuto with _cached_goat := mockGoatResponse }, .ok (),
          [.get ("/goat")]⟩
      ∧ (Goat.update envGoat goatAuto).state._cached_goat =
          mockGoatResponse) :=
  ⟨(c2_refresh_swap_or_retain envDown goatManual).1 .transportError rfl,
   (c2_refresh_swap_or_retain envGoat goatAuto).2 mockGoatResponse rfl⟩

/-- Counterexample to C3: when the goatd key itself is absent from the
root response, the version property does not return none — the chained
.get raises an AttributeError (None has no attribute get). -/
theorem c3_counterexample :
    (Goatd.version envRootEmpty).1 = .error .attributeError
  ∧ (Goatd.version envRootEmpty).1 ≠ .ok .null := by
  constructor
  · rfl
  · intro hcontra
    have h1 : (Goatd.version envRootEmpty).1 = .error .attributeError := rfl
    rw [h1] at hcontra
    exact Except.noConfusion hcontra

/-- C3 amended: the version property returns none (without raising)
when the goatd key is present and maps to an object with no version
key; when the goatd key is absent, content.get('goatd') yields None
and the chained .get('version') raises an AttributeError instead of
returning none. -/
theorem c3_version_missing_shape (env : Env) (kvs : List (String × Json))
    (h : env (.get ("/")) = .ok (.obj kvs)) :
    (∀ gkvs, jlookup ("goatd") kvs = some (.obj gkvs) →
        jlookup ("version") gkvs = none →
        (Goatd.version env).1 = .ok .null)
  ∧ (jlookup ("goatd") kvs = none →
        (Goatd.version env).1 = .error .attributeError) := by
  unfold Goatd.version Goatd.get
  rw [h]
  constructor
  · intro gkvs hg hv
    simp [pyGet, hg, hv]
  · intro hg
    simp [pyGet, hg]

/-- Witness for C3 amended: a root response whose goatd object has no
version key yields none; the empty root response raises. -/
theorem c3_version_missing_shape_witness :
    (Goatd.version envRootNoVersion).1 = .ok .null
  ∧ (Goatd.version envRootEmpty).1 = .error .attributeError :=
  ⟨(c3_version_missing_shape envRootNoVersion
      [(("goatd"), .obj [(("other"), .int 1)])] rfl).1
      [(("other"), .int 1)] rfl rfl,
   (c3_version_missing_shape envRootEmpty [] rfl).2 rfl⟩

/-- Counterexample to C4: against a daemon answering the POST with
active: null, start(null) returns the string result while stop()
returns None — the two result values differ, because stop discards
start's return value. -/
theorem c4_counterexample :
    (Behaviour.stop envBehNull).result ≠
      (Behaviour.start envBehNull .null).result := by
  intro hcontra
  have h1 : (Behaviour.stop envBehNull).result = .ok .null := rfl
  have h2 : (Behaviour.start envBehNull .null).result =
      .ok (.str ("no behaviour running")) := rfl
  rw [h1, h2] at hcontra
  injection hcontra with h3
  exact Json.noConfusion h3

/-- C4 amended: stop() issues exactly the POST of active: null to
/behaviours that start(null) issues and propagates the same failure,
but it discards start's string result and returns None. -/
theorem c4_stop_same_post_result_discarded (env : Env) :
    (Behaviour.stop env).trace = (Behaviour.start env .null).trace
  ∧ (Behaviour.stop env).trace =
      [.post ("/behaviours") (.obj [(("active"), .null)])]
  ∧ (Behaviour.stop env).result =
      (Behaviour.start env .null).result.map (fun _ => .null) := by
  have hs : (Behaviour.start env .null).trace =
      [.post ("/behaviours") (.obj [(("active"), .null)])] :=
    start_trace env .null
  unfold Behaviour.stop
  cases hst : Behaviour.start env .null with
  | mk r tr =>
    cases r with
    | error e =>
      refine ⟨rfl, ?_, rfl⟩
      rw [hst] at hs
      exact hs
    | ok v =>
      refine ⟨rfl, ?_, rfl⟩
      rw [hst] at hs
      exact hs

/-- C5: start(name) issues exactly one POST of active: name to
/behaviours; when the response object's active field holds a non-null
value v the result is the string started followed by v rendered (the
response value, independent of the requested name), and when the
active field is null the result is the literal string
no behaviour running. -/
theorem c5_start_post_and_result (env : Env) (name : Json) :
    (Behaviour.start env name).trace =
      [.post ("/behaviours") (.obj [(("active"), name)])]
  ∧ (∀ kvs,
      env (.post ("/behaviours") (.obj [(("active"), name)])) =
        .ok (.obj kvs) →
      (∀ v, jlookup ("active") kvs = some v → v ≠ .null →
          (Behaviour.start env name).result =
            .ok (.str ("started " ++ pyStr v)))
      ∧ (jlookup ("active") kvs = some .null →
          (Behaviour.start env name).result =
            .ok (.str ("no behaviour running")))) := by
  refine ⟨start_trace env name, ?_⟩
  intro kvs hd
  constructor
  · intro v hv hvne
    unfold Behaviour.start Goatd.post
    rw [hd]
    simp only [pyGet, hv]
  · intro hv
    unfold Behaviour.start Goatd.post
    rw [hd]
    simp only [pyGet, hv]

/-- Witness for C5: a mocked active: tack response yields started tack;
a mocked active: null response yields no behaviour running. -/
theorem c5_start_post_and_result_witness :
    (Behaviour.start envBehTack (.str ("tack"))).result =
      .ok (.str ("started tack"))
  ∧ (Behaviour.start envBehNull .null).result =
      .ok (.str ("no behaviour running")) := by
  constructor
  · exact ((c5_start_post_and_result envBehTack (.str ("tack"))).2
      [(("active"), .str ("tack"))] rfl).1 (.str ("tack")) rfl
      (fun hcontra => Json.noConfusion hcontra)
  · exact ((c5_start_post_and_result envBehNull .null).2
      [(("active"), .null)] rfl).2 rfl

/-- C6: for every host, port and path, the formatted URL is exactly
http followed by host, a colon, the port and the path, with no
normalization of the path. -/
theorem c6_url_format (h : String) (p : Int) (e : String) :
    Goatd.url ⟨h, p⟩ e = "http://" ++ h ++ ":" ++ toString p ++ e := by
  have hL : formatChars [h, toString p, e] (("http://{0}:{1}{2}").toList) =
      'h' :: 't' :: 't' :: 'p' :: ':' :: '/' :: '/' ::
        (h.data ++ ':' :: ((toString p).data ++ (e.data ++ []))) := rfl
  have hR : ("http://" ++ h ++ ":" ++ toString p ++ e).data =
      ((("http://".data ++ h.data) ++ [':']) ++ (toString p).data) ++
        e.data := rfl
  apply String.ext
  show formatChars [h, toString p, e] (("http://{0}:{1}{2}").toList) = _
  rw [hL, hR]
  have hlit : ("http://").data = ['h', 't', 't', 'p', ':', '/', '/'] := rfl
  rw [hlit]
  simp [List.append_assoc]

/-- Helper: once the angle has coerced to the float a, set_rudder is
the POST of the value object followed by the read of the result
field. -/
theorem set_rudder_eq (env : Env) (g : Goat) (angle : Json) (a : ℚ)
    (h : pyFloat angle = .ok a) :
    Goat.set_rudder env g angle =
      match env (.post ("/rudder") (.obj [(("value"), .float a)])) with
      | .error e =>
        ⟨g, .error e, [.post ("/rudder") (.obj [(("value"), .float a)])]⟩
      | .ok r =>
        ⟨g, pyGet r ("result"),
          [.post ("/rudder") (.obj [(("value"), .float a)])]⟩ := by
  unfold Goat.set_rudder Goatd.post
  rw [h]

/-- Helper: the same reduction for set_sail against /sail. -/
theorem set_sail_eq (env : Env) (g : Goat) (angle : Json) (a : ℚ)
    (h : pyFloat angle = .ok a) :
    Goat.set_sail env g angle =
      match env (.post ("/sail") (.obj [(("value"), .float a)])) with
      | .error e =>
        ⟨g, .error e, [.post ("/sail") (.obj [(("value"), .float a)])]⟩
      | .ok r =>
        ⟨g, pyGet r ("result"),
          [.post ("/sail") (.obj [(("value"), .float a)])]⟩ := by
  unfold Goat.set_sail Goatd.post
  rw [h]

/-- C7: for every angle value that coerces to the float a, set_rudder
issues exactly one POST of a value: a object (as a float, even for an
integer input) to /rudder and set_sail does the same to /sail; each
leaves the proxy state — in particular the cached snapshot — unchanged
and, when the response object carries a result field, returns that
field's value unchanged. -/
theorem c7_setters_post_float_keep_cache (env : Env) (g : Goat)
    (angle : Json) (a : ℚ) (h : pyFloat angle = .ok a) :
    ((Goat.set_rudder env g angle).trace =
        [.post ("/rudder") (.obj [(("value"), .float a)])]
      ∧ (Goat.set_rudder env g angle).state = g
      ∧ ∀ rkvs rv,
          env (.post ("/rudder") (.obj [(("value"), .float a)])) =
            .ok (.obj rkvs) →
          jlookup ("result") rkvs = some rv →
          (Goat.set_rudder env g angle).result = .ok rv)
  ∧ ((Goat.set_sail env g angle).trace =
        [.post ("/sail") (.obj [(("value"), .float a)])]
      ∧ (Goat.set_sail env g angle).state = g
      ∧ ∀ rkvs rv,
          env (.post ("/sail") (.obj [(("value"), .float a)])) =
            .ok (.obj rkvs) →
          jlookup ("result") rkvs = some rv →
          (Goat.set_sail env g angle).result = .ok rv) := by
  rw [set_rudder_eq env g angle a h, set_sail_eq env g angle a h]
  constructor
  · refine ⟨?_, ?_, ?_⟩
    · cases env (.post ("/rudder") (.obj [(("value"), .float a)])) <;> rfl
    · cases env (.post ("/rudder") (.obj [(("value"), .float a)])) <;> rfl
    · intro rkvs rv hr hv
      rw [hr]
      simp only [pyGet, hv]
  · refine ⟨?_, ?_, ?_⟩
    · cases env (.post ("/sail") (.obj [(("value"), .float a)])) <;> rfl
    · cases env (.post ("/sail") (.obj [(("value"), .float a)])) <;> rfl
    · intro rkvs rv hr hv
      rw [hr]
      simp only [pyGet, hv]

/-- Witness for C7: the integer angle 10 coerces to the float 10.0, the
POST body carries the float, and the mocked result field 10.0 comes
back unchanged. -/
theorem c7_setters_post_float_keep_cache_witness :
    ((Goat.set_rudder envResult10 goatManual (.int 10)).trace =
        [.post ("/rudder") (.obj [(("value"), .float 10)])]
      ∧ (Goat.set_rudder envResult10 goatManual (.int 10)).state =
          goatManual
      ∧ (Goat.set_rudder envResult10 goatManual (.int 10)).result =
          .ok (.float 10))
  ∧ ((Goat.set_sail envResult10 goatManual (.int 10)).trace =
        [.post ("/sail") (.obj [(("value"), .float 10)])]
      ∧ (Goat.set_sail envResult10 goatManual (.int 10)).state =
          goatManual
      ∧ (Goat.set_sail envResult10 goatManual (.int 10)).result =
          .ok (.float 10)) := by
  have h10 : pyFloat (.int 10) = .ok 10 := by
    simp [pyFloat]
  have hmain := c7_setters_post_float_keep_cache envResult10 goatManual
    (.int 10) 10 h10
  exact ⟨⟨hmain.1.1, hmain.1.2.1,
          hmain.1.2.2 [(("result"), .float 10)] (.float 10) rfl rfl⟩,
         ⟨hmain.2.1, hmain.2.2.1,
          hmain.2.2.2 [(("result"), .float 10)] (.float 10) rfl rfl⟩⟩

/-- C8: reading the proxy whose cached snapshot is the mocked /goat
response (auto_update disabled, so the cache itself is read) yields a
Bearing equivalent to 90 degrees for heading, the Wind triple of
Bearing 45, raw speed 5.0 and Bearing 30, the Point 51.5, -0.1 for
position, -10.0 for target_rudder_angle and 20.0 for
target_sail_angle. -/
theorem c8_round_trip (env : Env) :
    ((Goat.heading env goatManual).result = .ok (Bearing.ofFloat 90)
      ∧ (Bearing.ofFloat 90).equivalent 90)
  ∧ (Goat.wind env goatManual).result =
      .ok ⟨Bearing.ofFloat 45, .float 5, Bearing.ofFloat 30⟩
  ∧ (Goat.position env goatManual).result = .ok ⟨51.5, -0.1⟩
  ∧ (Goat.target_rudder_angle env goatManual).result = .ok (-10)
  ∧ (Goat.target_sail_angle env goatManual).result = .ok 20 :=
  ⟨⟨rfl, ⟨0, by norm_num [Bearing.ofFloat]⟩⟩, rfl, rfl, rfl, rfl⟩

/-- C9: get_home_position returns none — by design, not by raising —
when the /waypoints response has no home key, and returns the Point
built from the two home coordinates when home holds a 2-element
entry. -/
theorem c9_home_position (env : Env) (kvs : List (String × Json))
    (h : env (.get ("/waypoints")) = .ok (.obj kvs)) :
    (jlookup ("home") kvs = none →
        get_home_position env = ⟨.ok none, [.get ("/waypoints")]⟩)
  ∧ (∀ la lo a b, jlookup ("home") kvs = some (.arr [la, lo]) →
        pyFloat la = .ok a → pyFloat lo = .ok b →
        (get_home_position env).result = .ok (some ⟨a, b⟩)) := by
  unfold get_home_position Goatd.get
  rw [h]
  constructor
  · intro hnone
    simp only [pyGet, hnone]
  · intro la lo a b hsome ha hb
    simp only [pyGet, hsome, Point.ofPy, ha, hb]

/-- Witness for C9: the spec's two examples — a waypoints object
without home yields none, and home 3, 4 yields the Point 3, 4. -/
theorem c9_home_position_witness :
    get_home_position envNoHome = ⟨.ok none, [.get ("/waypoints")]⟩
  ∧ (get_home_position envHome34).result =
      .ok (some ⟨3, 4⟩) := by
  constructor
  · exact (c9_home_position envNoHome
      [(("waypoints"), .arr [.arr [.int 1, .int 2]])] rfl).1 rfl
  · exact (c9_home_position envHome34
      [(("waypoints"), .arr []), (("home"), .arr [.int 3, .int 4])] rfl).2
      (.int 3) (.int 4) 3 4 rfl (by simp [pyFloat]) (by simp [pyFloat])

/-- C10: when the angle cannot be coerced to float, set_rudder and
set_sail raise the coercion failure before any request is built: the
trace is empty (no POST to /rudder or /sail) and the proxy state is
unchanged. -/
theorem c10_coercion_failure_no_post (env : Env) (g : Goat)
    (angle : Json) (e : PyErr) (h : pyFloat angle = .error e) :
    Goat.set_rudder env g angle = ⟨g, .error e, []⟩
  ∧ Goat.set_sail env g angle = ⟨g, .error e, []⟩ := by
  unfold Goat.set_rudder Goat.set_sail
  rw [h]
  exact ⟨rfl, rfl⟩

/-- Witness for C10: float(None) raises TypeError, so the setters
issue nothing and change nothing even against a live oracle. -/
theorem c10_coercion_failure_no_post_witness :
    Goat.set_rudder envResult10 goatManual .null =
      ⟨goatManual, .error .typeError, []⟩
  ∧ Goat.set_sail envResult10 goatManual .null =
      ⟨goatManual, .error .typeError, []⟩ :=
  c10_coercion_failure_no_post envResult10 goatManual .null .typeError rfl
